import Mathlib

/-!
# Verification of the mongodb-nats-connector configuration and supervision layer

Shallow embedding of the connector's option system (`pkg/connector`), the
supervisor loop `Connector.Run`, the NATS client (`internal/nats`), and the
HTTP health server (`internal/server`).  Go functions that mutate a struct
in place and return an `error` are embedded as Lean functions returning a
pair `Option GoErr × State`: the error slot (`none` = Go `nil`) and the
state of the struct after the call.
-/

/-- Model of Go `strings.ToLower` (character-wise case folding). -/
def goToLower (s : String) : String :=
  String.mk (s.data.map Char.toLower)

/-- Model of Go `strings.ToUpper` (character-wise case folding). -/
def goToUpper (s : String) : String :=
  String.mk (s.data.map Char.toUpper)

/-- Model of Go `strings.EqualFold`: case-insensitive string equality. -/
def goEqualFold (s t : String) : Bool :=
  goToLower s == goToLower t

/-- Go `error` values appearing in the connector packages.  The four named
sentinel errors are the package-level `errors.New` values of `pkg/connector`;
`custom` stands for any other error value (e.g. errors injected by mocks);
`addStreamFailed` is the `fmt.Errorf` wrapper produced by
`DefaultClient.AddStream`. -/
inductive GoErr where
  | errDbNameMissing
  | errCollNameMissing
  | errInvalidCollSizeInBytes
  | errInvalidDbAndCollNames
  | addStreamFailed (streamName : String) (cause : GoErr)
  | custom (msg : String)
deriving DecidableEq, Repr

/-- `slog.DebugLevel`. -/
def slogDebugLevel : Int := -4
/-- `slog.InfoLevel`. -/
def slogInfoLevel : Int := 0
/-- `slog.WarnLevel`. -/
def slogWarnLevel : Int := 4
/-- `slog.ErrorLevel`. -/
def slogErrorLevel : Int := 8

/-- The `collection` struct of `pkg/connector` (one watched collection's
configuration).  Go `int64` is embedded as `Int`. -/
structure Collection where
  dbName : String
  collName : String
  changeStreamPreAndPostImages : Bool
  tokensDbName : String
  tokensCollName : String
  tokensCollCapped : Bool
  tokensCollSizeInBytes : Int
  streamName : String
deriving DecidableEq, Repr

/-- `WithChangeStreamPreAndPostImages`: sets the flag, never fails. -/
def withChangeStreamPreAndPostImages (c : Collection) : Option GoErr × Collection :=
  (none, { c with changeStreamPreAndPostImages := true })

/-- `WithTokensDbName`: sets `tokensDbName` when the argument is non-empty. -/
def withTokensDbName (tokensDbName : String) (c : Collection) : Option GoErr × Collection :=
  if tokensDbName ≠ "" then (none, { c with tokensDbName := tokensDbName }) else (none, c)

/-- `WithTokensCollName`: sets `tokensCollName` when the argument is non-empty. -/
def withTokensCollName (tokensCollName : String) (c : Collection) : Option GoErr × Collection :=
  if tokensCollName ≠ "" then (none, { c with tokensCollName := tokensCollName }) else (none, c)

/-- `WithTokensCollCapped`: rejects non-positive sizes with
`ErrInvalidCollSizeInBytes`, otherwise marks the tokens collection capped
with the given size. -/
def withTokensCollCapped (collSizeInBytes : Int) (c : Collection) : Option GoErr × Collection :=
  if collSizeInBytes ≤ 0 then
    (some GoErr.errInvalidCollSizeInBytes, c)
  else
    (none, { c with tokensCollCapped := true, tokensCollSizeInBytes := collSizeInBytes })

/-- `WithStreamName`: sets `streamName` when the argument is non-empty. -/
def withStreamName (streamName : String) (c : Collection) : Option GoErr × Collection :=
  if streamName ≠ "" then (none, { c with streamName := streamName }) else (none, c)

/-- Deep embedding of the five exported `CollectionOption` constructors, so
that claims may quantify over an arbitrary list of collection options. -/
inductive CollOpt where
  | changeStreamPreAndPostImages
  | tokensDbName (s : String)
  | tokensCollName (s : String)
  | tokensCollCapped (n : Int)
  | streamName (s : String)
deriving DecidableEq, Repr

/-- Dispatch a deep-embedded collection option to its source function. -/
def applyCollOpt : CollOpt → Collection → Option GoErr × Collection
  | CollOpt.changeStreamPreAndPostImages, c => withChangeStreamPreAndPostImages c
  | CollOpt.tokensDbName s, c => withTokensDbName s c
  | CollOpt.tokensCollName s, c => withTokensCollName s c
  | CollOpt.tokensCollCapped n, c => withTokensCollCapped n c
  | CollOpt.streamName s, c => withStreamName s c

/-- The option-application loop inside `WithCollection`: apply each option in
turn, stopping at the first error. -/
def applyCollOpts : List CollOpt → Collection → Option GoErr × Collection
  | [], c => (none, c)
  | o :: rest, c =>
    match applyCollOpt o c with
    | (some e, c') => (some e, c')
    | (none, c') => applyCollOpts rest c'

/-- The `Options` struct of `pkg/connector` (fields that carry configuration
data; the `ctx`/`stop` runtime handles are not data and are not embedded). -/
structure Options where
  logLevel : Int
  mongoUri : String
  natsUrl : String
  serverAddr : String
  collections : List Collection
deriving DecidableEq, Repr

/-- `getDefaultOptions`. -/
def getDefaultOptions : Options :=
  { logLevel := slogInfoLevel
    mongoUri := ""
    natsUrl := ""
    serverAddr := ""
    collections := [] }

/-- `WithLogLevel`: a `switch` on the lower-cased argument; unknown levels
fall through without touching the options and without error. -/
def withLogLevel (logLevel : String) (o : Options) : Option GoErr × Options :=
  if goToLower logLevel = "debug" then (none, { o with logLevel := slogDebugLevel })
  else if goToLower logLevel = "warn" then (none, { o with logLevel := slogWarnLevel })
  else if goToLower logLevel = "error" then (none, { o with logLevel := slogErrorLevel })
  else if goToLower logLevel = "info" then (none, { o with logLevel := slogInfoLevel })
  else (none, o)

/-- `WithMongoUri`: sets `mongoUri` when the argument is non-empty. -/
def withMongoUri (mongoUri : String) (o : Options) : Option GoErr × Options :=
  if mongoUri ≠ "" then (none, { o with mongoUri := mongoUri }) else (none, o)

/-- `WithNatsUrl`: sets `natsUrl` when the argument is non-empty. -/
def withNatsUrl (natsUrl : String) (o : Options) : Option GoErr × Options :=
  if natsUrl ≠ "" then (none, { o with natsUrl := natsUrl }) else (none, o)

/-- `WithServerAddr`: sets `serverAddr` when the argument is non-empty. -/
def withServerAddr (serverAddr : String) (o : Options) : Option GoErr × Options :=
  if serverAddr ≠ "" then (none, { o with serverAddr := serverAddr }) else (none, o)

/-- The `collection` literal built at the top of `WithCollection`, before any
collection option is applied: all defaulted fields. -/
def initialCollection (dbName collName : String) : Collection :=
  { dbName := dbName
    collName := collName
    changeStreamPreAndPostImages := false
    tokensDbName := "resume-tokens"
    tokensCollName := collName
    tokensCollCapped := false
    tokensCollSizeInBytes := 0
    streamName := goToUpper collName }

/-- `WithCollection`: validates the names, builds the default collection,
applies the collection options, rejects a tokens collection that would be
colocated (case-insensitively) with the watched collection, and otherwise
appends the collection to the options. -/
def withCollection (dbName collName : String) (opts : List CollOpt) (o : Options) :
    Option GoErr × Options :=
  if dbName = "" then (some GoErr.errDbNameMissing, o)
  else if collName = "" then (some GoErr.errCollNameMissing, o)
  else
    match applyCollOpts opts (initialCollection dbName collName) with
    | (some e, _) => (some e, o)
    | (none, c) =>
      if goEqualFold c.dbName c.tokensDbName && goEqualFold c.collName c.tokensCollName then
        (some GoErr.errInvalidDbAndCollNames, o)
      else
        (none, { o with collections := o.collections ++ [c] })

/-- A named monitor (`server.NamedMonitor`): a name and the outcome of its
`Monitor` call (`none` = healthy, `some e` = the returned error). -/
structure NamedMonitor where
  name : String
  monitorResult : Option GoErr
deriving DecidableEq, Repr

/-- The configurable fields of `internal/server.Server` (the `ctx`, `logger`
and `http` runtime handles are not data and are not embedded). -/
structure ServerState where
  addr : String
  monitors : List NamedMonitor
deriving DecidableEq, Repr

/-- `server.WithAddr`: sets `addr` when the argument is non-empty.  Server
options mutate the server and return nothing. -/
def serverWithAddr (addr : String) (s : ServerState) : ServerState :=
  if addr ≠ "" then { s with addr := addr } else s

/-- Health statuses `UP` / `DOWN` of `internal/server`. -/
inductive HealthStatus where
  | up
  | down
deriving DecidableEq, Repr

/-- The `monitoredComponents` JSON object: `{"status": ...}`. -/
structure MonitoredComponent where
  status : HealthStatus
deriving DecidableEq, Repr

/-- The `healthResponse` JSON body: top-level status plus one component entry
per registered monitor, in registration order. -/
structure HealthResponse where
  status : HealthStatus
  components : List (String × MonitoredComponent)
deriving DecidableEq, Repr

/-- An HTTP reply from the `/healthz` handler. -/
structure HttpHealthReply where
  httpStatus : Nat
  contentType : String
  body : HealthResponse
deriving DecidableEq, Repr

/-- Modelled from the spec: the `healthCheck` handler of `internal/server`
as the SPEC's words describe it (its source file is not among the provided
sources).  Per the spec, each component is `UP` when its monitor returns nil
and `DOWN` otherwise, and the top-level status is `DOWN` iff any component
is `DOWN`.  Stated only for comparison with the evidenced behavior
`healthCheck` below. -/
def healthCheckSpec (monitors : List NamedMonitor) : HttpHealthReply :=
  let comps := monitors.map fun m =>
    (m.name, MonitoredComponent.mk (if m.monitorResult.isSome then HealthStatus.down else HealthStatus.up))
  let overall := if monitors.any (fun m => m.monitorResult.isSome) then HealthStatus.down
    else HealthStatus.up
  { httpStatus := 200
    contentType := "application/json"
    body := { status := overall, components := comps } }

/-- The `healthCheck` handler of `internal/server` as evidenced by the
repository's own server test (`TestServer_Run`): the handler's source file
is absent from the provided sources, but the test pins its observable
behavior at the mixed two-monitor input `{cmp_up: nil, cmp_down: error}` —
HTTP 200, `Content-Type: application/json`, per-component `UP`/`DOWN` by
monitor outcome, and top-level status `UP` even though `cmp_down` is `DOWN`:
the handler does not aggregate component failures into the top-level status.
The model keeps the top-level status constantly `UP`, the behavior the
test's assertion evidences. -/
def healthCheck (monitors : List NamedMonitor) : HttpHealthReply :=
  { httpStatus := 200
    contentType := "application/json"
    body := { status := HealthStatus.up
              components := monitors.map fun m =>
                (m.name, MonitoredComponent.mk
                  (if m.monitorResult.isSome then HealthStatus.down else HealthStatus.up)) } }

/-- `nats.StorageType` values used by the client. -/
inductive StorageType where
  | file
  | memory
deriving DecidableEq, Repr

/-- The `nats.StreamConfig` fields set by `DefaultClient.AddStream`. -/
structure StreamConfig where
  name : String
  subjects : List String
  storage : StorageType
deriving DecidableEq, Repr

/-- `nats.AddStreamOptions` of `internal/nats`. -/
structure AddStreamOptions where
  streamName : String
deriving DecidableEq, Repr

/-- `DefaultClient.AddStream`: builds the stream configuration (subjects
`{streamName}.*`, file storage), submits it to the underlying JetStream
`AddStream` call (embedded as the oracle `js`), and wraps a failure in a
`fmt.Errorf` error.  The returned pair is (the submitted configuration, the
returned error). -/
def defaultClientAddStream (js : StreamConfig → Option GoErr) (opts : AddStreamOptions) :
    StreamConfig × Option GoErr :=
  let cfg : StreamConfig :=
    { name := opts.streamName
      subjects := [opts.streamName ++ ".*"]
      storage := StorageType.file }
  match js cfg with
  | some e => (cfg, some (GoErr.addStreamFailed opts.streamName e))
  | none => (cfg, none)

/-- The kinds of `nats.Option` handler registrations that `NewDefaultClient`
appends in its `extraOpts` slice.  The two disconnect-error closures in the
source are textually identical logging closures, so each registration is
fully described by its kind. -/
inductive NatsHandlerOpt where
  | disconnectErrHandler
  | reconnectHandler
  | closedHandler
deriving DecidableEq, Repr

/-- The `extraOpts` list built by `nats.NewDefaultClient`, in source order:
two (identical) disconnect-error handlers, one reconnect handler, one
closed handler. -/
def newDefaultClientExtraOpts : List NatsHandlerOpt :=
  [NatsHandlerOpt.disconnectErrHandler,
   NatsHandlerOpt.disconnectErrHandler,
   NatsHandlerOpt.reconnectHandler,
   NatsHandlerOpt.closedHandler]

/-- `mongo.CreateCollectionOptions` of `internal/mongo` (field set as used by
`Connector.Run` and the connector tests). -/
structure CreateCollectionOptions where
  dbName : String
  collName : String
  capped : Bool
  sizeInBytes : Int
  changeStreamPreAndPostImages : Bool
deriving DecidableEq, Repr

/-- The environment `Connector.Run` interacts with: the DocDB client's
`CreateCollection` outcome per request, the bus client's `AddStream` outcome
per request, the value `errgroup.Wait` eventually returns once all spawned
tasks finish (abstracting the concurrent task group), and the outcomes of the
two clients' `Close` calls during cleanup. -/
structure RunEnv where
  createCollection : CreateCollectionOptions → Option GoErr
  addStream : AddStreamOptions → Option GoErr
  waitResult : Option GoErr
  mongoCloseErr : Option GoErr
  natsCloseErr : Option GoErr

/-- Observable actions of `Connector.Run`, in program order. -/
inductive RunEvent where
  | createCollection (opts : CreateCollectionOptions)
  | addStream (opts : AddStreamOptions)
  | spawnWatcher (coll : Collection)
  | spawnServerTask
  | spawnShutdownTask
  | closeMongo
  | closeNats
  | logCloseError
  | releaseSignalHandler
deriving DecidableEq, Repr

/-- The `createWatchedCollOpts` literal in `Connector.Run`: only `DbName`,
`CollName` and `ChangeStreamPreAndPostImages` are set (Go zero values for the
rest). -/
def watchedCollOpts (c : Collection) : CreateCollectionOptions :=
  { dbName := c.dbName
    collName := c.collName
    capped := false
    sizeInBytes := 0
    changeStreamPreAndPostImages := c.changeStreamPreAndPostImages }

/-- The `createResumeTokensCollOpts` literal in `Connector.Run`: only
`DbName`, `CollName`, `Capped` and `SizeInBytes` are set. -/
def resumeTokensCollOpts (c : Collection) : CreateCollectionOptions :=
  { dbName := c.tokensDbName
    collName := c.tokensCollName
    capped := c.tokensCollCapped
    sizeInBytes := c.tokensCollSizeInBytes
    changeStreamPreAndPostImages := false }

/-- The per-collection loop of `Connector.Run`: for each collection, create
the watched collection, create the resume-tokens collection, add the bus
stream — returning at the first error — and then spawn that collection's
watcher goroutine before moving to the next collection.  Returns the error
(if any) and the emitted event trace. -/
def runBootLoop (env : RunEnv) : List Collection → Option GoErr × List RunEvent
  | [] => (none, [])
  | c :: rest =>
    match env.createCollection (watchedCollOpts c) with
    | some err => (some err, [RunEvent.createCollection (watchedCollOpts c)])
    | none =>
      match env.createCollection (resumeTokensCollOpts c) with
      | some err =>
        (some err,
         [RunEvent.createCollection (watchedCollOpts c),
          RunEvent.createCollection (resumeTokensCollOpts c)])
      | none =>
        match env.addStream (AddStreamOptions.mk c.streamName) with
        | some err =>
          (some err,
           [RunEvent.createCollection (watchedCollOpts c),
            RunEvent.createCollection (resumeTokensCollOpts c),
            RunEvent.addStream (AddStreamOptions.mk c.streamName)])
        | none =>
          let next := runBootLoop env rest
          (next.1,
           RunEvent.createCollection (watchedCollOpts c)
             :: RunEvent.createCollection (resumeTokensCollOpts c)
             :: RunEvent.addStream (AddStreamOptions.mk c.streamName)
             :: RunEvent.spawnWatcher c
             :: next.2)

/-- `Connector.closeClient`: a `Close` whose error is only logged. -/
def closeClientEvents (closeErr : Option GoErr) (closeEv : RunEvent) : List RunEvent :=
  match closeErr with
  | some _ => [closeEv, RunEvent.logCloseError]
  | none => [closeEv]

/-- `Connector.cleanup` (run via `defer` whenever `Run` returns): close the
DocDB client, close the bus client, release the signal handler — in that
order; close errors are logged and never returned. -/
def cleanupEvents (env : RunEnv) : List RunEvent :=
  closeClientEvents env.mongoCloseErr RunEvent.closeMongo ++
    closeClientEvents env.natsCloseErr RunEvent.closeNats ++
    [RunEvent.releaseSignalHandler]

/-- `Connector.Run`: run the bootstrap/spawn loop over the configured
collections; on a bootstrap error return it at once (the deferred cleanup
still runs); otherwise spawn the HTTP-server task and the shutdown task and
return whatever the task group's `Wait` returns, again followed by the
deferred cleanup. -/
def connectorRun (env : RunEnv) (collections : List Collection) :
    Option GoErr × List RunEvent :=
  let boot := runBootLoop env collections
  match boot.1 with
  | some err => (some err, boot.2 ++ cleanupEvents env)
  | none =>
    (env.waitResult,
     boot.2 ++ [RunEvent.spawnServerTask, RunEvent.spawnShutdownTask] ++ cleanupEvents env)

/-- A sample collection configuration, used to instantiate theorems with
hypotheses at concrete inputs. -/
def sampleColl : Collection := initialCollection "connector-db" "coll1"

/-- A concrete collection-option list that relocates the tokens collection
onto the watched collection up to case: used to instantiate C4. -/
def colocatedCollOpts : List CollOpt :=
  [CollOpt.tokensDbName "DB", CollOpt.tokensCollName "COLL"]

/-- The first error among the three bootstrap DDL steps `Connector.Run`
performs for one collection (create watched collection, create resume-tokens
collection, add bus stream), or `none` if all three succeed. -/
def bootFirstErr (env : RunEnv) (c : Collection) : Option GoErr :=
  match env.createCollection (watchedCollOpts c) with
  | some e => some e
  | none =>
    match env.createCollection (resumeTokensCollOpts c) with
    | some e => some e
    | none => env.addStream (AddStreamOptions.mk c.streamName)

/-- The collections whose watcher task was spawned in a trace, in spawn
order. -/
def watchersSpawned (tr : List RunEvent) : List Collection :=
  tr.filterMap fun e =>
    match e with
    | RunEvent.spawnWatcher c => some c
    | _ => none

/-- Whether an event is one of the three cleanup actions performed by
`Connector.cleanup`: closing the DocDB client, closing the bus client,
releasing the signal handler. -/
def isCleanupAction : RunEvent → Bool
  | RunEvent.closeMongo => true
  | RunEvent.closeNats => true
  | RunEvent.releaseSignalHandler => true
  | _ => false

/-- First collection of the two-collection run used to instantiate C2 (its
DDL succeeds). -/
def cexColl1 : Collection := initialCollection "db1" "coll1"

/-- Second collection of the two-collection run used to instantiate C2 (its
DDL fails). -/
def cexColl2 : Collection := initialCollection "db2" "coll2"

/-- Environment of the two-collection run used to instantiate C2:
`CreateCollection` fails exactly for database `db2`; everything else
succeeds. -/
def cexEnv : RunEnv :=
  { createCollection := fun opts =>
      if opts.dbName = "db2" then some (GoErr.custom "create collection error") else none
    addStream := fun _ => none
    waitResult := none
    mongoCloseErr := none
    natsCloseErr := none }

/-- C3: an input whose lower-casing is none of `debug`, `warn`, `error`,
`info` makes `WithLogLevel` return nil and leave every `Options` field
unchanged. -/
theorem withLogLevel_unknown_level_is_noop (s : String) (o : Options)
    (h : goToLower s ∉ ["debug", "warn", "error", "info"]) :
    withLogLevel s o = (none, o) := by
  simp only [List.mem_cons, List.not_mem_nil, or_false, not_or] at h
  obtain ⟨h1, h2, h3, h4⟩ := h
  simp [withLogLevel, h1, h2, h3, h4]

/-- Witness for C3 at the concrete unknown level `"VERBOSE"`. -/
theorem withLogLevel_unknown_level_is_noop_witness :
    goToLower "VERBOSE" ∉ ["debug", "warn", "error", "info"] ∧
      withLogLevel "VERBOSE" getDefaultOptions = (none, getDefaultOptions) :=
  ⟨by decide, withLogLevel_unknown_level_is_noop "VERBOSE" getDefaultOptions (by decide)⟩

/-- C5: `WithTokensCollCapped` rejects sizes ≤ 0 with
`ErrInvalidCollSizeInBytes` leaving the collection unchanged, and for
positive sizes succeeds, setting `tokensCollCapped` and
`tokensCollSizeInBytes`. -/
theorem withTokensCollCapped_size_validation (n : Int) (c : Collection) :
    (n ≤ 0 → withTokensCollCapped n c = (some GoErr.errInvalidCollSizeInBytes, c)) ∧
      (0 < n → withTokensCollCapped n c =
        (none, { c with tokensCollCapped := true, tokensCollSizeInBytes := n })) := by
  constructor
  · intro h
    simp [withTokensCollCapped, h]
  · intro h
    simp [withTokensCollCapped, not_le.mpr h]

/-- Witness for C5 at sizes `-1` and `2048`. -/
theorem withTokensCollCapped_size_validation_witness :
    withTokensCollCapped (-1) sampleColl = (some GoErr.errInvalidCollSizeInBytes, sampleColl) ∧
      withTokensCollCapped 2048 sampleColl =
        (none, { sampleColl with tokensCollCapped := true, tokensCollSizeInBytes := 2048 }) :=
  ⟨(withTokensCollCapped_size_validation (-1) sampleColl).1 (by decide),
   (withTokensCollCapped_size_validation 2048 sampleColl).2 (by decide)⟩

/-- C10: each string-valued option — `server.WithAddr`, `WithMongoUri`,
`WithNatsUrl`, `WithServerAddr`, `WithTokensDbName`, `WithTokensCollName`,
`WithStreamName` — applied with the empty string succeeds and leaves the
target configuration struct entirely unchanged. -/
theorem empty_string_options_are_noops (s : ServerState) (o : Options) (c : Collection) :
    serverWithAddr "" s = s ∧
      withMongoUri "" o = (none, o) ∧
      withNatsUrl "" o = (none, o) ∧
      withServerAddr "" o = (none, o) ∧
      withTokensDbName "" c = (none, c) ∧
      withTokensCollName "" c = (none, c) ∧
      withStreamName "" c = (none, c) := by
  refine ⟨?_, ?_, ?_, ?_, ?_, ?_, ?_⟩ <;>
    simp [serverWithAddr, withMongoUri, withNatsUrl, withServerAddr, withTokensDbName,
      withTokensCollName, withStreamName]

/-- C8: `DefaultClient.AddStream` submits a stream configuration with the
given name, subjects exactly `[name ++ ".*"]` and file storage, and returns
an error iff the underlying JetStream add-stream call fails. -/
theorem addStream_request_shape_and_error (js : StreamConfig → Option GoErr) (s : String) :
    (defaultClientAddStream js (AddStreamOptions.mk s)).1 =
        StreamConfig.mk s [s ++ ".*"] StorageType.file ∧
      ((defaultClientAddStream js (AddStreamOptions.mk s)).2 = none ↔
        js (StreamConfig.mk s [s ++ ".*"] StorageType.file) = none) := by
  unfold defaultClientAddStream
  cases h : js (StreamConfig.mk s [s ++ ".*"] StorageType.file) <;> simp [h]

/-- C9: the `extraOpts` list built by `nats.NewDefaultClient` registers the
disconnect-error handler twice, alongside one reconnect handler and one
closed handler (four entries in total). -/
theorem newDefaultClient_registers_disconnect_handler_twice :
    newDefaultClientExtraOpts.count NatsHandlerOpt.disconnectErrHandler = 2 ∧
      newDefaultClientExtraOpts.count NatsHandlerOpt.reconnectHandler = 1 ∧
      newDefaultClientExtraOpts.count NatsHandlerOpt.closedHandler = 1 ∧
      newDefaultClientExtraOpts.length = 4 := by decide

/-- Counterexample to C6 as stated: with the non-empty names
`"resume-tokens"` / `"coll1"` and no options, `WithCollection` appends no
collection at all — the defaulted `tokensDbName` equals `dbName`
case-insensitively and `tokensCollName` defaults to `collName`, so the
colocation check fires and `ErrInvalidDbAndCollNames` is returned. -/
theorem withCollection_defaults_counterexample :
    withCollection "resume-tokens" "coll1" [] getDefaultOptions =
        (some GoErr.errInvalidDbAndCollNames, getDefaultOptions) ∧
      (withCollection "resume-tokens" "coll1" [] getDefaultOptions).2.collections = [] := by
  decide

/-- C6 (amended): for non-empty `dbName` and `collName` where `dbName` is not
case-insensitively equal to `"resume-tokens"`, `WithCollection` with no
collection options appends exactly one collection with the defaulted fields:
pre/post images off, tokens collection `resume-tokens`/`collName`, not
capped, size 0, stream name the upper-casing of `collName`. -/
theorem withCollection_defaults (db coll : String) (hdb : db ≠ "") (hcoll : coll ≠ "")
    (hne : goEqualFold db "resume-tokens" = false) (o : Options) :
    withCollection db coll [] o =
      (none, { o with collections := o.collections ++
        [{ dbName := db
           collName := coll
           changeStreamPreAndPostImages := false
           tokensDbName := "resume-tokens"
           tokensCollName := coll
           tokensCollCapped := false
           tokensCollSizeInBytes := 0
           streamName := goToUpper coll }] }) := by
  unfold withCollection
  rw [if_neg hdb, if_neg hcoll]
  simp [applyCollOpts, initialCollection, hne]

/-- Witness for C6 (amended) at `("connector-db", "coll1")`. -/
theorem withCollection_defaults_witness :
    ("connector-db" : String) ≠ "" ∧ ("coll1" : String) ≠ "" ∧
      goEqualFold "connector-db" "resume-tokens" = false ∧
      withCollection "connector-db" "coll1" [] getDefaultOptions =
        (none, { getDefaultOptions with collections := getDefaultOptions.collections ++
          [{ dbName := "connector-db"
             collName := "coll1"
             changeStreamPreAndPostImages := false
             tokensDbName := "resume-tokens"
             tokensCollName := "coll1"
             tokensCollCapped := false
             tokensCollSizeInBytes := 0
             streamName := goToUpper "coll1" }] }) :=
  ⟨by decide, by decide, by decide,
   withCollection_defaults "connector-db" "coll1" (by decide) (by decide) (by decide)
     getDefaultOptions⟩

/-- Every error an individual collection option can return is
`ErrInvalidCollSizeInBytes` (only `WithTokensCollCapped` can fail). -/
theorem applyCollOpt_error_shape (o : CollOpt) (c : Collection) :
    (applyCollOpt o c).1 = none ∨ (applyCollOpt o c).1 = some GoErr.errInvalidCollSizeInBytes := by
  cases o <;>
    simp only [applyCollOpt, withChangeStreamPreAndPostImages, withTokensDbName,
      withTokensCollName, withTokensCollCapped, withStreamName] <;>
    (try split) <;> simp

/-- Every error the collection-option loop can return is
`ErrInvalidCollSizeInBytes`. -/
theorem applyCollOpts_error_shape (opts : List CollOpt) (c : Collection) :
    (applyCollOpts opts c).1 = none ∨
      (applyCollOpts opts c).1 = some GoErr.errInvalidCollSizeInBytes := by
  induction opts generalizing c with
  | nil => simp [applyCollOpts]
  | cons o rest ih =>
    simp only [applyCollOpts]
    rcases h : applyCollOpt o c with ⟨e, c'⟩
    cases e with
    | none => exact ih c'
    | some e' =>
      have := applyCollOpt_error_shape o c
      rw [h] at this
      simpa using this

/-- C4: for non-empty names, `WithCollection` fails with
`ErrInvalidDbAndCollNames` iff after applying the collection options the
watched and tokens coordinates coincide case-insensitively; on that failure
the options' collection list (and the whole `Options` value) is unchanged. -/
theorem withCollection_colocation_check (db coll : String) (hdb : db ≠ "") (hcoll : coll ≠ "")
    (opts : List CollOpt) (o : Options) :
    ((withCollection db coll opts o).1 = some GoErr.errInvalidDbAndCollNames ↔
      ((applyCollOpts opts (initialCollection db coll)).1 = none ∧
        goEqualFold (applyCollOpts opts (initialCollection db coll)).2.dbName
            (applyCollOpts opts (initialCollection db coll)).2.tokensDbName = true ∧
          goEqualFold (applyCollOpts opts (initialCollection db coll)).2.collName
            (applyCollOpts opts (initialCollection db coll)).2.tokensCollName = true)) ∧
      ((withCollection db coll opts o).1 = some GoErr.errInvalidDbAndCollNames →
        (withCollection db coll opts o).2 = o) := by
  unfold withCollection
  rw [if_neg hdb, if_neg hcoll]
  rcases h : applyCollOpts opts (initialCollection db coll) with ⟨e, c⟩
  cases e with
  | some e' =>
    have hshape := applyCollOpts_error_shape opts (initialCollection db coll)
    rw [h] at hshape
    simp only [Option.some.injEq, reduceCtorEq, false_or] at hshape
    subst hshape
    simp
  | none =>
    by_cases hc : goEqualFold c.dbName c.tokensDbName && goEqualFold c.collName c.tokensCollName
    · rw [Bool.and_eq_true] at hc
      simp [hc]
    · rw [Bool.and_eq_true, not_and_or] at hc
      rcases hc with hc | hc <;> simp [Bool.not_eq_true] at hc <;> simp [hc]

/-- Witness for C4 at `("db", "coll")` with options that set the tokens
coordinates to `("DB", "COLL")`. -/
theorem withCollection_colocation_check_witness :
    ("db" : String) ≠ "" ∧ ("coll" : String) ≠ "" ∧
      (((withCollection "db" "coll" colocatedCollOpts getDefaultOptions).1 =
          some GoErr.errInvalidDbAndCollNames ↔
        ((applyCollOpts colocatedCollOpts (initialCollection "db" "coll")).1 = none ∧
          goEqualFold (applyCollOpts colocatedCollOpts (initialCollection "db" "coll")).2.dbName
              (applyCollOpts colocatedCollOpts
                (initialCollection "db" "coll")).2.tokensDbName = true ∧
            goEqualFold
                (applyCollOpts colocatedCollOpts (initialCollection "db" "coll")).2.collName
                (applyCollOpts colocatedCollOpts
                  (initialCollection "db" "coll")).2.tokensCollName = true)) ∧
        ((withCollection "db" "coll" colocatedCollOpts getDefaultOptions).1 =
            some GoErr.errInvalidDbAndCollNames →
          (withCollection "db" "coll" colocatedCollOpts getDefaultOptions).2 =
            getDefaultOptions)) :=
  ⟨by decide, by decide,
   withCollection_colocation_check "db" "coll" (by decide) (by decide) colocatedCollOpts
     getDefaultOptions⟩

/-- C1: at the claim's exact two-monitor input `{cmp_up: nil, cmp_down:
error}`, the handler (as pinned by the in-repo server test `TestServer_Run`)
replies 200 with JSON content type and body
`{status: UP, components: {cmp_up: {status: UP}, cmp_down: {status: DOWN}}}`
— top-level status `UP` — whereas the spec's words (embodied in
`healthCheckSpec`, and in the claim) demand top-level status `DOWN` there:
the code diverges from the spec on the health-status aggregation. -/
theorem healthz_top_level_status_divergence :
    healthCheck [NamedMonitor.mk "cmp_up" none,
        NamedMonitor.mk "cmp_down" (some (GoErr.custom "not reachable"))] =
      { httpStatus := 200
        contentType := "application/json"
        body := { status := HealthStatus.up
                  components := [("cmp_up", MonitoredComponent.mk HealthStatus.up),
                                 ("cmp_down", MonitoredComponent.mk HealthStatus.down)] } } ∧
      (healthCheckSpec [NamedMonitor.mk "cmp_up" none,
          NamedMonitor.mk "cmp_down" (some (GoErr.custom "not reachable"))]).body.status =
        HealthStatus.down ∧
      HealthStatus.up ≠ HealthStatus.down := by decide

theorem runBootLoop_cons_ok (env : RunEnv) (c : Collection) (rest : List Collection)
    (h : bootFirstErr env c = none) :
    runBootLoop env (c :: rest) =
      ((runBootLoop env rest).1,
       RunEvent.createCollection (watchedCollOpts c)
         :: RunEvent.createCollection (resumeTokensCollOpts c)
         :: RunEvent.addStream (AddStreamOptions.mk c.streamName)
         :: RunEvent.spawnWatcher c :: (runBootLoop env rest).2) := by
  unfold bootFirstErr at h
  cases h1 : env.createCollection (watchedCollOpts c) with
  | some e => rw [h1] at h; exact absurd h (by simp)
  | none =>
    rw [h1] at h
    cases h2 : env.createCollection (resumeTokensCollOpts c) with
    | some e => rw [h2] at h; exact absurd h (by simp)
    | none =>
      rw [h2] at h
      cases h3 : env.addStream (AddStreamOptions.mk c.streamName) with
      | some e => rw [h3] at h; exact absurd h (by simp)
      | none => simp only [runBootLoop, h1, h2, h3]

theorem runBootLoop_cons_fail (env : RunEnv) (c : Collection) (rest : List Collection)
    (e : GoErr) (h : bootFirstErr env c = some e) :
    (runBootLoop env (c :: rest)).1 = some e ∧
      watchersSpawned (runBootLoop env (c :: rest)).2 = [] := by
  unfold bootFirstErr at h
  unfold runBootLoop
  cases h1 : env.createCollection (watchedCollOpts c) with
  | some e' =>
    rw [h1] at h
    simp only [Option.some.injEq] at h
    subst h
    simp [watchersSpawned]
  | none =>
    rw [h1] at h
    cases h2 : env.createCollection (resumeTokensCollOpts c) with
    | some e' =>
      rw [h2] at h
      simp only [Option.some.injEq] at h
      subst h
      simp [watchersSpawned]
    | none =>
      rw [h2] at h
      cases h3 : env.addStream (AddStreamOptions.mk c.streamName) with
      | some e' =>
        rw [h3] at h
        simp only [Option.some.injEq] at h
        subst h
        simp [watchersSpawned]
      | none => rw [h3] at h; exact absurd h (by simp)

theorem runBootLoop_good_prefix (env : RunEnv) (good : List Collection)
    (l : List Collection) (hgood : ∀ c ∈ good, bootFirstErr env c = none) :
    (runBootLoop env (good ++ l)).1 = (runBootLoop env l).1 ∧
      watchersSpawned (runBootLoop env (good ++ l)).2 =
        good ++ watchersSpawned (runBootLoop env l).2 := by
  induction good with
  | nil => simp
  | cons c cs ih =>
    have hc : bootFirstErr env c = none := hgood c (by simp)
    have ih' := ih (fun x hx => hgood x (by simp [hx]))
    rw [List.cons_append, runBootLoop_cons_ok env c (cs ++ l) hc]
    simp only [watchersSpawned, List.filterMap_cons] at ih' ⊢
    exact ⟨ih'.1, by simp [ih'.2]⟩

theorem watchersSpawned_cleanup (env : RunEnv) :
    watchersSpawned (cleanupEvents env) = [] := by
  rcases env with ⟨cc, adds, w, mce, nce⟩
  cases mce <;> cases nce <;>
    simp [cleanupEvents, closeClientEvents, watchersSpawned]

/-- Counterexample to C2 as stated: a bootstrap DDL error makes `Run` return
that error, yet a watcher task for the earlier collection was already
spawned. -/
theorem run_bootstrap_failure_counterexample :
    (connectorRun cexEnv [cexColl1, cexColl2]).1 =
        some (GoErr.custom "create collection error") ∧
      RunEvent.spawnWatcher cexColl1 ∈ (connectorRun cexEnv [cexColl1, cexColl2]).2 := by
  decide

/-- C2 (amended): if the bootstrap DDL of some collection fails (all earlier
collections' bootstrap having succeeded), `Run` returns that first error, no
watcher is spawned for the failing collection or any later one, and the
watchers already spawned are exactly those of the earlier collections. -/
theorem run_bootstrap_failure_aborts (env : RunEnv) (good : List Collection)
    (bad : Collection) (rest : List Collection) (e : GoErr)
    (hgood : ∀ c ∈ good, bootFirstErr env c = none)
    (hbad : bootFirstErr env bad = some e) :
    (connectorRun env (good ++ bad :: rest)).1 = some e ∧
      watchersSpawned (connectorRun env (good ++ bad :: rest)).2 = good := by
  have hfail := runBootLoop_cons_fail env bad rest e hbad
  have hpre := runBootLoop_good_prefix env good (bad :: rest) hgood
  have hres : (runBootLoop env (good ++ bad :: rest)).1 = some e := by
    rw [hpre.1, hfail.1]
  have htr : watchersSpawned (runBootLoop env (good ++ bad :: rest)).2 = good := by
    rw [hpre.2, hfail.2, List.append_nil]
  simp only [connectorRun, hres]
  constructor
  · trivial
  · simp only [watchersSpawned, List.filterMap_append] at htr ⊢
    rw [htr]
    have hclean := watchersSpawned_cleanup env
    simp only [watchersSpawned] at hclean
    simp [hclean]

/-- Witness for C2 (amended) at the concrete two-collection run of the
counterexample environment. -/
theorem run_bootstrap_failure_aborts_witness :
    bootFirstErr cexEnv cexColl1 = none ∧
      bootFirstErr cexEnv cexColl2 = some (GoErr.custom "create collection error") ∧
      ((connectorRun cexEnv ([cexColl1] ++ cexColl2 :: [])).1 =
          some (GoErr.custom "create collection error") ∧
        watchersSpawned (connectorRun cexEnv ([cexColl1] ++ cexColl2 :: [])).2 = [cexColl1]) :=
  ⟨by decide, by decide,
   run_bootstrap_failure_aborts cexEnv [cexColl1] cexColl2 []
     (GoErr.custom "create collection error") (by decide) (by decide)⟩

theorem runBootLoop_no_cleanup_action (env : RunEnv) (colls : List Collection) :
    (runBootLoop env colls).2.filter isCleanupAction = [] := by
  induction colls with
  | nil => rfl
  | cons c rest ih =>
    cases h1 : env.createCollection (watchedCollOpts c) with
    | some e => simp [runBootLoop, h1, isCleanupAction]
    | none =>
      cases h2 : env.createCollection (resumeTokensCollOpts c) with
      | some e => simp [runBootLoop, h1, h2, isCleanupAction]
      | none =>
        cases h3 : env.addStream (AddStreamOptions.mk c.streamName) with
        | some e => simp [runBootLoop, h1, h2, h3, isCleanupAction]
        | none => simp [runBootLoop, h1, h2, h3, isCleanupAction, ih]

theorem cleanupEvents_filter (env : RunEnv) :
    (cleanupEvents env).filter isCleanupAction =
      [RunEvent.closeMongo, RunEvent.closeNats, RunEvent.releaseSignalHandler] := by
  rcases env with ⟨createC, addS, w, mce, nce⟩
  cases mce <;> cases nce <;>
    simp [cleanupEvents, closeClientEvents, isCleanupAction, List.filter_append]

theorem runBootLoop_close_independent (createC : CreateCollectionOptions → Option GoErr)
    (addS : AddStreamOptions → Option GoErr) (w a b a' b' : Option GoErr)
    (colls : List Collection) :
    runBootLoop (RunEnv.mk createC addS w a b) colls =
      runBootLoop (RunEnv.mk createC addS w a' b') colls := by
  induction colls with
  | nil => rfl
  | cons c rest ih =>
    cases h1 : createC (watchedCollOpts c) with
    | some e => simp [runBootLoop, h1]
    | none =>
      cases h2 : createC (resumeTokensCollOpts c) with
      | some e => simp [runBootLoop, h1, h2]
      | none =>
        cases h3 : addS (AddStreamOptions.mk c.streamName) with
        | some e => simp [runBootLoop, h1, h2, h3]
        | none => simp [runBootLoop, h1, h2, h3, ih]

/-- C7: whatever the outcome of a run (bootstrap error, task-group error or
clean wait result), the trace of `Connector.Run` performs exactly one DocDB
close, then one bus close, then one signal-handler release, in that order;
and the value `Run` returns is unchanged under any close-time errors of the
two clients (they are only logged). -/
theorem run_cleanup_order_and_error_isolation
    (createC : CreateCollectionOptions → Option GoErr)
    (addS : AddStreamOptions → Option GoErr) (w a b a' b' : Option GoErr)
    (colls : List Collection) :
    (connectorRun (RunEnv.mk createC addS w a b) colls).2.filter isCleanupAction =
        [RunEvent.closeMongo, RunEvent.closeNats, RunEvent.releaseSignalHandler] ∧
      (connectorRun (RunEnv.mk createC addS w a b) colls).1 =
        (connectorRun (RunEnv.mk createC addS w a' b') colls).1 := by
  constructor
  · cases hb : (runBootLoop (RunEnv.mk createC addS w a b) colls).1 with
    | some e =>
      simp [connectorRun, hb, List.filter_append, runBootLoop_no_cleanup_action,
        cleanupEvents_filter]
    | none =>
      simp [connectorRun, hb, List.filter_append, runBootLoop_no_cleanup_action,
        cleanupEvents_filter, isCleanupAction]
  · have hloop := runBootLoop_close_independent createC addS w a b a' b' colls
    cases hb : (runBootLoop (RunEnv.mk createC addS w a' b') colls).1 with
    | some e => simp [connectorRun, hloop, hb]
    | none => simp [connectorRun, hloop, hb]
